import Mathlib

/-!
Shallow embedding of the `quack` application core (src/src/main.rs): the
persisted-preference store (the three `create_rw_signal` loads and their
`create_effect` write-backs in `app`), the duck-selection guard in `settings`,
and the sound player in `sounds` (random catalog choice, single audio element,
rate/volume sync effect).

Browser local storage is modelled as an association list from string keys to
JSON values; the serde_json layer is modelled at the granularity the program
uses it: unit enum variants serialize to their name as a JSON string, floats
to a JSON number (numbers are embedded as exact rationals).  `fastrand`'s
range reduction for a length that divides 2^64 is the multiply-high of a
uniform 64-bit draw, with no rejection step.
-/

namespace Quack

/-- The `Duck` enum (src/src/main.rs lines 209-215): four fixed variants. -/
inductive Duck where
  | One
  | Two
  | Three
  | Four
deriving DecidableEq, Repr

/-- `Duck::iter` (src/src/main.rs lines 217-220): the constant array
`[Self::One, Self::Two, Self::Three, Self::Four]`. -/
def Duck.iter : List Duck := [.One, .Two, .Three, .Four]

/-- `Duck::source` (src/src/main.rs lines 222-229). -/
def Duck.source : Duck → String
  | .One => "https://images.pexels.com/photos/3759364/pexels-photo-3759364.jpeg"
  | .Two => "https://images.pexels.com/photos/592677/pexels-photo-592677.jpeg"
  | .Three => "https://images.pexels.com/photos/5337590/pexels-photo-5337590.jpeg"
  | .Four => "https://images.pexels.com/photos/226601/pexels-photo-226601.jpeg"

/-- JSON scalar values as the program stores them via gloo/serde_json:
a string (enum variant tag) or a number (floats embedded as exact rationals). -/
inductive Json where
  | str (s : String)
  | num (q : ℚ)
deriving DecidableEq, Repr

/-- `gloo_storage::errors::StorageError`, restricted to the variants the
modelled storage can produce: `KeyNotFound` and a deserialization failure. -/
inductive StorageError where
  | keyNotFound (key : String)
  | serdeError (key : String)
deriving DecidableEq, Repr

/-- `StorageError`'s `Display` rendering, as fed to `throw_str`/`unwrap_throw`.
The exact text is immaterial; only that the error is propagated. -/
def StorageError.render : StorageError → String
  | .keyNotFound key => "key " ++ key ++ " not found"
  | .serdeError key => "failed to deserialize value under key " ++ key

/-- Browser local storage: association list from string keys to JSON values. -/
abbrev Storage := List (String × Json)

/-- Raw keyed read from local storage. -/
def getRaw : Storage → String → Option Json
  | [], _ => none
  | (k, v) :: rest, key => if k = key then some v else getRaw rest key

/-- Raw keyed write to local storage (replaces an existing binding). -/
def setRaw : Storage → String → Json → Storage
  | [], key, v => [(key, v)]
  | (k, w) :: rest, key, v =>
    if k = key then (k, v) :: rest else (k, w) :: setRaw rest key v

/-- serde serialization of a `Duck` value: unit variant name as JSON string. -/
def serializeDuck : Duck → Json
  | .One => .str "One"
  | .Two => .str "Two"
  | .Three => .str "Three"
  | .Four => .str "Four"

/-- serde deserialization of a `Duck` value. -/
def deserializeDuck : Json → Option Duck
  | .str "One" => some .One
  | .str "Two" => some .Two
  | .str "Three" => some .Three
  | .str "Four" => some .Four
  | _ => none

/-- serde serialization of an `f64` preference value. -/
def serializeNum : ℚ → Json := .num

/-- serde deserialization of an `f64` preference value: anything that is not
a JSON number fails to deserialize. -/
def deserializeNum : Json → Option ℚ
  | .num q => some q
  | _ => none

/-- `LocalStorage::get::<T>(key)`: `Err(KeyNotFound)` when the key is absent,
`Err(SerdeError)` when the stored value fails to deserialize, `Ok` otherwise. -/
def localStorageGet (deser : Json → Option α) (st : Storage) (key : String) :
    Except StorageError α :=
  match getRaw st key with
  | none => .error (.keyNotFound key)
  | some j =>
    match deser j with
    | some v => .ok v
    | none => .error (.serdeError key)

/-- The load pattern of `app` (src/src/main.rs lines 26-30, 36-40, 46-50):
`Ok(value) => value`, `Err(KeyNotFound) => default`,
`Err(err) => throw_str(&err.to_string())`.  The thrown JS exception is
modelled as `Except.error` carrying the rendered error string. -/
def loadPref (deser : Json → Option α) (dflt : α) (st : Storage) (key : String) :
    Except String α :=
  match localStorageGet deser st key with
  | .ok v => .ok v
  | .error (.keyNotFound _) => .ok dflt
  | .error e => .error e.render

/-- `LocalStorage::set(key, value)`, with an environment-injected failure
(`fail`) standing for the storage layer refusing the write (quota,
serialization failure, ...). On success the binding is replaced. -/
def localStorageSet (st : Storage) (key : String) (j : Json)
    (fail : Option StorageError) : Except StorageError Storage :=
  match fail with
  | some e => .error e
  | none => .ok (setRaw st key j)

/-- The write-back effect of `app` (src/src/main.rs lines 32-34, 42-44, 52-54):
`LocalStorage::set(key, value).unwrap_throw()`.  A failed write throws,
modelled as `Except.error` with the rendered storage error. -/
def persistPref (ser : α → Json) (key : String) (v : α) (st : Storage)
    (fail : Option StorageError) : Except String Storage :=
  match localStorageSet st key (ser v) fail with
  | .ok st2 => .ok st2
  | .error e => .error e.render

/-- src/src/main.rs line 19. -/
def DEFAULT_PLAYBACK_RATE : ℚ := 8 / 10

/-- src/src/main.rs line 20. -/
def DEFAULT_VOLUME : ℚ := 1 / 10

/-- The app-level load of the `"ducky"` preference (lines 26-30). -/
def loadDucky (st : Storage) : Except String Duck :=
  loadPref deserializeDuck Duck.One st "ducky"

/-- The app-level load of the `"playback_rate"` preference (lines 36-40). -/
def loadPlaybackRate (st : Storage) : Except String ℚ :=
  loadPref deserializeNum DEFAULT_PLAYBACK_RATE st "playback_rate"

/-- The app-level load of the `"volume"` preference (lines 46-50). -/
def loadVolume (st : Storage) : Except String ℚ :=
  loadPref deserializeNum DEFAULT_VOLUME st "volume"

/-- Observable state of the duck picker: the `ducky` signal's value together
with a counter of persistence writes performed by the `create_effect` on
lines 32-34 (the effect fires exactly when the signal is set). -/
structure SettingsState where
  selection : Duck
  writes : Nat
deriving DecidableEq, Repr

/-- The radio-button click handler of `settings` (src/src/main.rs lines
113-119): `if selection.get() != duck { selection.set(duck); info!(...) }`.
Setting the signal triggers the persistence effect, counted in `writes`. -/
def selectDuck (s : SettingsState) (duck : Duck) : SettingsState :=
  if s.selection ≠ duck then { selection := duck, writes := s.writes + 1 } else s

/-- The sound catalog `SOUNDS` (src/src/main.rs lines 170-179). -/
def SOUNDS : List String := [
  "https://cdn.videvo.net/videvo_files/audio/premium/audio0024/watermarked/AnimalDuckCart%20CTE01_21.1_preview.mp3",
  "https://cdn.videvo.net/videvo_files/audio/premium/audio0024/watermarked/AnimalDuckCart%20CTE01_21.2_preview.mp3",
  "https://cdn.videvo.net/videvo_files/audio/premium/audio0024/watermarked/AnimalDuckCart%20CTE01_22.3_preview.mp3",
  "https://cdn.videvo.net/videvo_files/audio/premium/audio0024/watermarked/AnimalDuckCart%20CTE01_22.4_preview.mp3",
  "https://cdn.videvo.net/videvo_files/audio/premium/audio0024/watermarked/AnimalDuckCart%20CTE01_23.1_preview.mp3",
  "https://cdn.videvo.net/videvo_files/audio/premium/audio0024/watermarked/AnimalDuckCart%20CTE01_23.2_preview.mp3",
  "https://cdn.videvo.net/videvo_files/audio/premium/audio0024/watermarked/AnimalDuckCart%20CTE01_23.4_preview.mp3",
  "https://cdn.videvo.net/videvo_files/audio/premium/audio0024/watermarked/AnimalDuckCart%20CTE01_24.1_preview.mp3"]

/-- `fastrand`'s reduction of a uniform 64-bit draw `u` to an index below `n`:
the high 64 bits of the 128-bit product `u * n`.  For `n` dividing `2^64`
(here `n = 8`) the reduction is exact and no rejection step runs. -/
def lemire64 (u n : Nat) : Nat := u % 2 ^ 64 * n / 2 ^ 64

theorem lemire64_lt (u : Nat) {n : Nat} (hn : 0 < n) : lemire64 u n < n := by
  have h : u % 2 ^ 64 < 2 ^ 64 := Nat.mod_lt _ (by norm_num)
  have h2 : u % 2 ^ 64 * n < 2 ^ 64 * n := mul_lt_mul_of_pos_right h hn
  exact Nat.div_lt_of_lt_mul h2

/-- `fastrand::choice` on a slice: `None` on an empty slice, otherwise the
element at the reduced uniform index. -/
def choice (l : List String) (u : Nat) : Option String :=
  if h : l.length = 0 then none
  else some (l.get ⟨lemire64 u l.length, lemire64_lt u (Nat.pos_of_ne_zero h)⟩)

/-- The single `HtmlAudioElement` of the `sounds` component (line 183):
fresh elements have playback rate 1, volume 1, and no source. -/
structure AudioElem where
  defaultPlaybackRate : ℚ
  volume : ℚ
  src : Option String
deriving DecidableEq, Repr

/-- State of the `sounds` component: the two preference signals it reads and
the one audio element it owns. -/
structure SoundsState where
  playbackRate : ℚ
  volume : ℚ
  audio : AudioElem
deriving DecidableEq, Repr

/-- Events the `sounds` component reacts to: a preference change (which
reruns the sync effect) or a click of the play button, carrying that
invocation's fresh 64-bit random draw. -/
inductive SoundsEvent where
  | setRate (q : ℚ)
  | setVolume (q : ℚ)
  | play (u : Nat)
deriving DecidableEq, Repr

/-- The `create_effect` of `sounds` (src/src/main.rs lines 185-191): copies
the current preference values onto the audio element. -/
def syncEffect (s : SoundsState) : SoundsState :=
  { s with audio := { s.audio with
      defaultPlaybackRate := s.playbackRate, volume := s.volume } }

/-- Component setup (lines 183-191): create the audio element; the effect
runs once immediately, syncing rate and volume. -/
def soundsInit (rate vol : ℚ) : SoundsState :=
  syncEffect { playbackRate := rate
               volume := vol
               audio := { defaultPlaybackRate := 1, volume := 1, src := none } }

/-- One step of the event loop: a preference change updates the signal and
reruns the sync effect; `play` (lines 193-202) draws a random catalog entry
and reassigns the single audio element's `src`. -/
def soundsStep (s : SoundsState) : SoundsEvent → SoundsState
  | .setRate q => syncEffect { s with playbackRate := q }
  | .setVolume q => syncEffect { s with volume := q }
  | .play u => { s with audio := { s.audio with src := choice SOUNDS u } }

/-- Run a sequence of UI events from a state. -/
def runEvents (s : SoundsState) (evs : List SoundsEvent) : SoundsState :=
  evs.foldl soundsStep s

/-! Helper lemmas -/

theorem getRaw_setRaw_self (st : Storage) (key : String) (v : Json) :
    getRaw (setRaw st key v) key = some v := by
  induction st with
  | nil => simp [setRaw, getRaw]
  | cons hd tl ih =>
    by_cases h : hd.1 = key
    · simp [setRaw, getRaw, h]
    · simp [setRaw, getRaw, h, ih]

theorem deserializeDuck_serializeDuck (d : Duck) :
    deserializeDuck (serializeDuck d) = some d := by
  cases d <;> rfl

/-! Claim theorems -/

/-- C1, counterexample: the claim says a stored value that fails to
deserialize makes the load log a warning and return the default; on the code
(src/src/main.rs lines 46-50), a corrupted `"volume"` value hits the
`Err(err) => throw_str(...)` arm, so `loadVolume` does not return the
default `0.1`. -/
theorem C1_counterexample :
    loadVolume [("volume", Json.str "quack")] ≠ Except.ok DEFAULT_VOLUME := by
  simp [loadVolume, loadPref, localStorageGet, getRaw, deserializeNum,
    StorageError.render]

/-- C1 (amended): for every preference key, if the stored value is present
but fails to deserialize, the load operation throws the rendered storage
error (it aborts; it does not log a warning and it does not return the
default); only a missing key yields the default.  In particular, loading
`"volume"` with default `0.1` over a corrupted non-numeric value throws
instead of returning `0.1`. -/
theorem C1_corrupt_read_throws {α : Type} (deser : Json → Option α) (dflt : α)
    (st : Storage) (key : String) (j : Json)
    (hget : getRaw st key = some j) (hdeser : deser j = none) :
    loadPref deser dflt st key = Except.error (StorageError.serdeError key).render := by
  simp [loadPref, localStorageGet, hget, hdeser, StorageError.render]

theorem C1_corrupt_read_throws_witness :
    loadPref deserializeNum DEFAULT_VOLUME [("volume", Json.str "quack")] "volume"
      = Except.error (StorageError.serdeError "volume").render :=
  C1_corrupt_read_throws deserializeNum DEFAULT_VOLUME
    [("volume", Json.str "quack")] "volume" (Json.str "quack") rfl rfl

/-- C2: a failed persistent-storage write on a mutation throws
(`unwrap_throw`, src/src/main.rs lines 32-34, 42-44, 52-54), aborting the
attempted operation rather than being swallowed, while a read whose key is
absent never aborts and yields the default (lines 26-30, 36-40, 46-50). -/
theorem C2_write_fatal_read_tolerant :
    (∀ (α : Type) (ser : α → Json) (key : String) (v : α) (st : Storage)
       (e : StorageError),
      persistPref ser key v st (some e) = Except.error e.render) ∧
    (∀ (α : Type) (deser : Json → Option α) (dflt : α) (st : Storage)
       (key : String),
      getRaw st key = none → loadPref deser dflt st key = Except.ok dflt) := by
  constructor
  · intro α ser key v st e
    rfl
  · intro α deser dflt st key h
    simp [loadPref, localStorageGet, h]

theorem C2_write_fatal_read_tolerant_witness :
    persistPref serializeDuck "ducky" Duck.Two []
        (some (StorageError.serdeError "ducky"))
      = Except.error (StorageError.serdeError "ducky").render ∧
    loadPref deserializeDuck Duck.One [] "ducky" = Except.ok Duck.One :=
  ⟨C2_write_fatal_read_tolerant.1 Duck serializeDuck "ducky" Duck.Two []
      (StorageError.serdeError "ducky"),
   C2_write_fatal_read_tolerant.2 Duck deserializeDuck Duck.One [] "ducky" rfl⟩

/-- C3: with nothing stored under a preference's key, the app-level loads
return exactly the documented defaults: `Duck::One` for `"ducky"`, `0.8`
for `"playback_rate"`, `0.1` for `"volume"`. -/
theorem C3_documented_defaults (st : Storage)
    (h1 : getRaw st "ducky" = none) (h2 : getRaw st "playback_rate" = none)
    (h3 : getRaw st "volume" = none) :
    loadDucky st = Except.ok Duck.One ∧
    loadPlaybackRate st = Except.ok (8 / 10 : ℚ) ∧
    loadVolume st = Except.ok (1 / 10 : ℚ) := by
  refine ⟨?_, ?_, ?_⟩ <;>
    simp [loadDucky, loadPlaybackRate, loadVolume, loadPref, localStorageGet,
      h1, h2, h3, DEFAULT_PLAYBACK_RATE, DEFAULT_VOLUME]

theorem C3_documented_defaults_witness :
    loadDucky [] = Except.ok Duck.One ∧
    loadPlaybackRate [] = Except.ok (8 / 10 : ℚ) ∧
    loadVolume [] = Except.ok (1 / 10 : ℚ) :=
  C3_documented_defaults [] rfl rfl rfl

/-- C4: for each preference key and every value in its legal range, a
successful persist followed by a load of the same key within the same
runtime returns exactly the stored value (round trip through
serialization and deserialization). -/
theorem C4_round_trip (st st1 st2 st3 : Storage) (d : Duck) (q r : ℚ)
    (hd : persistPref serializeDuck "ducky" d st none = Except.ok st1)
    (hq1 : (15 : ℚ) / 100 ≤ q) (hq2 : q ≤ 2)
    (hpq : persistPref serializeNum "playback_rate" q st none = Except.ok st2)
    (hr1 : (1 : ℚ) / 100 ≤ r) (hr2 : r ≤ 1)
    (hpr : persistPref serializeNum "volume" r st none = Except.ok st3) :
    loadDucky st1 = Except.ok d ∧
    loadPlaybackRate st2 = Except.ok q ∧
    loadVolume st3 = Except.ok r := by
  have e1 : st1 = setRaw st "ducky" (serializeDuck d) := by
    simpa [persistPref, localStorageSet] using hd.symm
  have e2 : st2 = setRaw st "playback_rate" (serializeNum q) := by
    simpa [persistPref, localStorageSet] using hpq.symm
  have e3 : st3 = setRaw st "volume" (serializeNum r) := by
    simpa [persistPref, localStorageSet] using hpr.symm
  subst e1 e2 e3
  refine ⟨?_, ?_, ?_⟩ <;>
    simp [loadDucky, loadPlaybackRate, loadVolume, loadPref, localStorageGet,
      getRaw_setRaw_self, deserializeDuck_serializeDuck, serializeNum,
      deserializeNum]

theorem C4_round_trip_witness :
    loadDucky [("ducky", Json.str "Three")] = Except.ok Duck.Three ∧
    loadPlaybackRate [("playback_rate", Json.num (137 / 100))]
      = Except.ok (137 / 100 : ℚ) ∧
    loadVolume [("volume", Json.num (42 / 100))] = Except.ok (42 / 100 : ℚ) :=
  C4_round_trip [] _ _ _ Duck.Three (137 / 100) (42 / 100) rfl
    (by norm_num) (by norm_num) rfl (by norm_num) (by norm_num) rfl

/-- C5: clicking the radio button of the duck that is already selected is a
no-op: the guard `if selection.get() != duck` (src/src/main.rs lines
113-119) leaves the selection unchanged and fires no persistence write,
for every current selection and write count. -/
theorem C5_select_current_noop (s : SettingsState) :
    selectDuck s s.selection = s := by
  simp [selectDuck]

/-- The audio element carries the current preference values. -/
def synced (s : SoundsState) : Prop :=
  s.audio.defaultPlaybackRate = s.playbackRate ∧ s.audio.volume = s.volume

theorem synced_syncEffect (s : SoundsState) : synced (syncEffect s) := by
  simp [synced, syncEffect]

theorem synced_soundsStep {s : SoundsState} (h : synced s) (e : SoundsEvent) :
    synced (soundsStep s e) := by
  cases e with
  | setRate q => exact synced_syncEffect _
  | setVolume q => exact synced_syncEffect _
  | play u => simpa [synced, soundsStep] using h

theorem synced_runEvents {s : SoundsState} (h : synced s)
    (evs : List SoundsEvent) : synced (runEvents s evs) := by
  induction evs generalizing s with
  | nil => exact h
  | cons e evs ih =>
    simp only [runEvents, List.foldl] at ih ⊢
    exact ih (synced_soundsStep h e)

theorem synced_soundsInit (rate vol : ℚ) : synced (soundsInit rate vol) :=
  synced_syncEffect _

/-- C6: after any history of preference changes and plays, the audio
element's rate and volume equal the current preference values; a `play`
leaves them equal to the current values (the values applied at playback
start are the ones current at call time, not stale ones), and the sync
effect (src/src/main.rs lines 185-191) re-applies a changed rate or volume
to the audio element immediately, independent of any play action. -/
theorem C6_rate_volume_applied (rate vol : ℚ) (evs : List SoundsEvent)
    (u : Nat) (q : ℚ) :
    ((runEvents (soundsInit rate vol) evs).audio.defaultPlaybackRate
        = (runEvents (soundsInit rate vol) evs).playbackRate ∧
      (runEvents (soundsInit rate vol) evs).audio.volume
        = (runEvents (soundsInit rate vol) evs).volume) ∧
    ((soundsStep (runEvents (soundsInit rate vol) evs)
          (SoundsEvent.play u)).audio.defaultPlaybackRate
        = (runEvents (soundsInit rate vol) evs).playbackRate ∧
      (soundsStep (runEvents (soundsInit rate vol) evs)
          (SoundsEvent.play u)).audio.volume
        = (runEvents (soundsInit rate vol) evs).volume) ∧
    (soundsStep (runEvents (soundsInit rate vol) evs)
        (SoundsEvent.setRate q)).audio.defaultPlaybackRate = q ∧
    (soundsStep (runEvents (soundsInit rate vol) evs)
        (SoundsEvent.setVolume q)).audio.volume = q := by
  have h := synced_runEvents (synced_soundsInit rate vol) evs
  refine ⟨⟨h.1, h.2⟩, ⟨?_, ?_⟩, ?_, ?_⟩
  · simpa [soundsStep] using h.1
  · simpa [soundsStep] using h.2
  · simp [soundsStep, syncEffect]
  · simp [soundsStep, syncEffect]

/-- C7: after any nonempty sequence of plays, the single audio element's
source is assigned (exactly one active source) and equals the catalog entry
chosen by the most recent invocation's random draw — each `play` reassigns
`src` on the one element created at line 183, last write wins, nothing is
queued. -/
theorem C7_last_play_wins (s : SoundsState) (us : List Nat) (u : Nat) :
    (runEvents s ((us.map SoundsEvent.play) ++ [SoundsEvent.play u])).audio.src
        = choice SOUNDS u ∧
    (choice SOUNDS u).isSome = true := by
  constructor
  · simp [runEvents, List.foldl_append, soundsStep]
  · simp [choice, SOUNDS]

/-- The reduced index equals the top three bits of the 64-bit draw. -/
theorem lemire64_eight_eq_div (u : Nat) (hu : u < 2 ^ 64) :
    lemire64 u 8 = u / 2 ^ 61 := by
  unfold lemire64
  rw [Nat.mod_eq_of_lt hu]
  omega

/-- C8: the chosen index is always in `[0,7]`; the catalog has exactly 8
pairwise-distinct entries; over the full space of 64-bit draws, each index
is chosen by exactly `2^61` draws (exact uniformity of `fastrand`'s
reduction for range 8); each invocation's choice depends only on its own
fresh draw, and repeats across invocations are possible (draws 0 and 1 pick
the same entry). -/
theorem C8_uniform_in_range :
    (∀ u : Nat, lemire64 u 8 < 8) ∧
    SOUNDS.length = 8 ∧ SOUNDS.Nodup ∧
    (∀ i : Nat, i < 8 →
      ((Finset.range (2 ^ 64)).filter (fun u => lemire64 u 8 = i)).card
        = 2 ^ 61) ∧
    choice SOUNDS 0 = choice SOUNDS 1 := by
  refine ⟨fun u => lemire64_lt u (by norm_num), by decide, by decide, ?_, rfl⟩
  intro i hi
  have hset : (Finset.range (2 ^ 64)).filter (fun u => lemire64 u 8 = i)
      = Finset.Ico (i * 2 ^ 61) ((i + 1) * 2 ^ 61) := by
    ext u
    simp only [Finset.mem_filter, Finset.mem_range, Finset.mem_Ico, lemire64]
    omega
  rw [hset, Nat.card_Ico]
  omega

theorem C8_uniform_in_range_witness :
    ((Finset.range (2 ^ 64)).filter (fun u => lemire64 u 8 = 3)).card = 2 ^ 61 ∧
    lemire64 12345 8 < 8 :=
  ⟨C8_uniform_in_range.2.2.2.1 3 (by norm_num), C8_uniform_in_range.1 12345⟩

/-- C9: the `unwrap` on `fastrand::choice(SOUNDS)` at src/src/main.rs line
196 can never panic: the catalog is a constant 8-entry (nonempty) slice, so
`choice` returns `Some` for every random draw. -/
theorem C9_choice_never_none :
    SOUNDS.length = 8 ∧ ∀ u : Nat, (choice SOUNDS u).isSome = true := by
  refine ⟨by decide, fun u => ?_⟩
  simp [choice, SOUNDS]

/-- C10: `Duck::iter` (src/src/main.rs lines 217-220) enumerates exactly
the four variants `One`, `Two`, `Three`, `Four`, each exactly once, in that
order, so the picker offers every variant with no duplicates. -/
theorem C10_iter_exactly_four :
    Duck.iter = [Duck.One, Duck.Two, Duck.Three, Duck.Four] ∧
    Duck.iter.Nodup ∧ ∀ d : Duck, d ∈ Duck.iter := by
  refine ⟨rfl, by decide, ?_⟩
  intro d
  cases d <;> decide

end Quack
